import Mathlib

/-!
# dma `util.c`: timeout controller, locked open, prefix comparison

A shallow embedding of three pieces of `src/util.c`:

* `sigalrm_handler` / `do_timeout` (lines 204-248), over an explicit process
  state holding the two file-scope statics and the kernel-side SIGALRM state;
* `open_locked` (lines 250-278), the branch compiled when `O_EXLOCK` is not
  defined, over an explicit descriptor table;
* `strprefixcmp` (lines 295-299), over NUL-terminated byte strings.

Calls into the operating system whose outcome the program cannot predict
(`sigaction`, `open`, `flock`, `close`) take their outcome as an argument.
-/

namespace Dma

/-! ## Timeout controller: state -/

/-- Dispositions SIGALRM can have in this program: the two special values of
`<signal.h>` and the one handler `util.c` defines. -/
inductive Handler where
  | SIG_DFL
  | SIG_IGN
  | sigalrm_handler
  deriving DecidableEq, Repr

/-- Contents of a `sigjmp_buf` filled by the `sigsetjmp` in `do_timeout`: the
identity of the `do_timeout` activation that called `sigsetjmp`, and the value
of its parameter `timeout`, which lives in the saved frame. -/
structure JmpBuf where
  here : Nat
  timeout : Int
  deriving DecidableEq, Repr

/-- Process state seen by the timeout controller.
`sigbuf` and `sigbuf_valid` are the file-scope statics of lines 204-205
(`sigbuf = none` is a buffer never written); `pending_alarm` is the number of
seconds until the kernel raises SIGALRM (0: no alarm pending);
`sigalrm_action` is the current disposition of SIGALRM; `syslog` collects the
warnings written by `do_timeout`. -/
structure Proc where
  sigbuf : Option JmpBuf
  sigbuf_valid : Int
  pending_alarm : Nat
  sigalrm_action : Handler
  syslog : List String
  deriving DecidableEq, Repr

/-- Process state at program start: statics zero-initialised, no alarm pending,
SIGALRM at its default disposition, nothing logged. -/
def Proc.init : Proc :=
  { sigbuf := none, sigbuf_valid := 0, pending_alarm := 0,
    sigalrm_action := Handler.SIG_DFL, syslog := [] }

/-- Signal number of SIGALRM. -/
def SIGALRM : Int := 14

/-! ## Timeout controller: system calls -/

/-- The call `alarm(seconds)`: the `int` argument is converted to `unsigned int`;
any earlier alarm is replaced, and `alarm(0)` cancels it. -/
def alarm (seconds : Int) (s : Proc) : Proc :=
  { s with pending_alarm := (seconds % 2 ^ 32).toNat }

/-- The call `sigaction(SIGALRM, &act, NULL)` with `act.sa_handler = h`.
`ok` is the kernel's verdict: on success the disposition becomes `h` and the
call returns 0, on failure nothing changes and it returns -1. -/
def sigaction (h : Handler) (ok : Bool) (s : Proc) : Int × Proc :=
  if ok then (0, { s with sigalrm_action := h }) else (-1, s)

/-- The call `syslog(LOG_WARNING, msg)`. -/
def syslog_warning (msg : String) (s : Proc) : Proc :=
  { s with syslog := s.syslog ++ [msg] }

/-! ## Timeout controller: `sigalrm_handler` and `do_timeout` -/

/-- How a run of `sigalrm_handler` ends: by returning, or by `siglongjmp`. -/
inductive Control where
  | returned (s : Proc)
  | siglongjmp (buf : Option JmpBuf) (val : Int) (s : Proc)
  deriving DecidableEq, Repr

/-- Lines 207-213.
```
if (sigbuf_valid)
        siglongjmp(sigbuf, 1);
``` -/
def sigalrm_handler (_signo : Int) (s : Proc) : Control :=
  if s.sigbuf_valid ≠ 0 then Control.siglongjmp s.sigbuf 1 s
  else Control.returned s

/-- Lines 238-247, the code from the label `disable` to the `return`:
```
alarm(0);
act.sa_handler = SIG_IGN;
if (sigaction(SIGALRM, &act, NULL) != 0)
        syslog(LOG_WARNING, "can not remove signal handler: %m");
sigbuf_valid = 0;
return (ret);
``` -/
def do_timeout_disable (ret : Int) (ok : Bool) (s : Proc) : Int × Proc :=
  let s1 := alarm 0 s
  let r := sigaction Handler.SIG_IGN ok s1
  let s2 := if r.1 ≠ 0 then syslog_warning "can not remove signal handler: %m" r.2 else r.2
  (ret, { s2 with sigbuf_valid := 0 })

/-- Lines 229-236 and 247, the code that runs each time `sigsetjmp(sigbuf, 1)`
returns, with `ret` the value it returned: 0 on the direct call, the `val` of
`siglongjmp` when control comes back through the buffer.
```
ret = sigsetjmp(sigbuf, 1);
if (ret)
        goto disable;
sigbuf_valid = 1;
... alarm(timeout); ... return (ret);
``` -/
def do_timeout_after_sigsetjmp (ret timeout : Int) (ok : Bool) (s : Proc) : Int × Proc :=
  if ret ≠ 0 then do_timeout_disable ret ok s
  else (ret, alarm timeout { s with sigbuf_valid := 1 })

/-- Lines 215-248, a direct call `do_timeout(timeout, dojmp)`.
`here` names this activation (it is what `sigsetjmp` records), `ok` is the
outcome of the one `sigaction` call the activation makes. -/
def do_timeout (timeout dojmp : Int) (here : Nat) (ok : Bool) (s : Proc) : Int × Proc :=
  let ret : Int := 0
  if timeout ≠ 0 then
    let r := sigaction Handler.sigalrm_handler ok s
    let s1 := if r.1 ≠ 0 then syslog_warning "can not set signal handler: %m" r.2 else r.2
    if dojmp ≠ 0 then
      do_timeout_after_sigsetjmp 0 timeout ok
        { s1 with sigbuf := some { here := here, timeout := timeout } }
    else
      (ret, alarm timeout s1)
  else
    do_timeout_disable ret ok s

/-! ## Timeout controller: signal delivery -/

/-- What the arrival of one SIGALRM does to the process, when it arrives
between two calls of `do_timeout`. -/
inductive Delivery where
  /-- disposition `SIG_DFL`: the default action of SIGALRM ends the process -/
  | terminated
  /-- disposition `SIG_IGN`: the signal is discarded -/
  | ignored (s : Proc)
  /-- `sigalrm_handler` ran and returned; the interrupted code continues -/
  | returned (s : Proc)
  /-- `sigalrm_handler` called `siglongjmp(sigbuf, 1)`. The only `sigsetjmp` on
  `sigbuf` is the one inside `do_timeout` (line 229), and that activation has
  returned (line 247) by the time a signal arrives between calls, so the jump
  goes to a frame that no longer exists (or to a buffer never filled): the
  behaviour is undefined and nothing is known of what follows -/
  | undefined
  deriving DecidableEq, Repr

/-- Arrival of SIGALRM in state `s`, between two calls of `do_timeout`.
The argument `_ok` stands for the outcome of the `sigaction` call of the
`disable` path; no branch reads it, because that path is only entered through
a return of `sigsetjmp`, and a `siglongjmp` from the handler has no defined
continuation here. -/
def deliver_SIGALRM (_ok : Bool) (s : Proc) : Delivery :=
  match s.sigalrm_action with
  | Handler.SIG_DFL => Delivery.terminated
  | Handler.SIG_IGN => Delivery.ignored s
  | Handler.sigalrm_handler =>
    match sigalrm_handler SIGALRM s with
    | Control.returned s1 => Delivery.returned s1
    | Control.siglongjmp _ _ _ => Delivery.undefined

/-- Whether the delivery transferred control through `siglongjmp`. -/
def Delivery.jumped : Delivery → Bool
  | Delivery.undefined => true
  | _ => false

/-- State in which the program continues after the delivery, if it does. -/
def Delivery.after : Delivery → Option Proc
  | Delivery.ignored s => some s
  | Delivery.returned s => some s
  | _ => none

/-- What can happen to the controller: a SIGALRM arrives, or the program calls
`do_timeout`. -/
inductive Event where
  | sigalrm (ok : Bool)
  | call (timeout dojmp : Int) (here : Nat) (ok : Bool)
  deriving DecidableEq, Repr

/-- An event that arms a deadline: a call with `timeout` non-zero. -/
def Event.arms : Event → Bool
  | Event.call timeout _ _ _ => decide (timeout ≠ 0)
  | _ => false

/-- One event; `none` when the process does not continue. -/
def exec (s : Proc) : Event → Option Proc
  | Event.sigalrm ok => (deliver_SIGALRM ok s).after
  | Event.call timeout dojmp here ok => some (do_timeout timeout dojmp here ok s).2

/-- A sequence of events, oldest first. -/
def run (s : Proc) : List Event → Option Proc
  | [] => some s
  | e :: es => (exec s e).bind fun s1 => run s1 es

/-! ## Locked open: descriptor table and system calls -/

/-- Value of `O_CREAT` in `<fcntl.h>` (Linux, where `O_EXLOCK` is absent). -/
def O_CREAT : Nat := 0o100

/-- Value of `O_NONBLOCK` in `<fcntl.h>` (Linux). -/
def O_NONBLOCK : Nat := 0o4000

/-- Value of `LOCK_EX` in `<sys/file.h>`. -/
def LOCK_EX : Nat := 2

/-- Value of `LOCK_NB` in `<sys/file.h>`. -/
def LOCK_NB : Nat := 4

/-- Error number `EBADF`. -/
def EBADF : Int := 9

/-- One system call as issued, with the value it returned. -/
inductive Syscall where
  | sys_open (path : String) (flags : Nat) (mode : Int) (ret : Int)
  | sys_flock (fd : Int) (operation : Nat) (ret : Int)
  | sys_close (fd : Int) (ret : Int)
  deriving DecidableEq, Repr

/-- Kernel-side state seen by `open_locked`: the descriptors open in the
process, those among them on which the process holds an exclusive `flock`,
the value of `errno`, and the system calls issued so far, oldest first. -/
structure Kernel where
  open_fds : List Int
  flocked : List Int
  errno : Int
  trace : List Syscall
  deriving DecidableEq, Repr

/-- What the kernel answers to the calls of one `open_locked` run: for each call
`none` means success and `some e` failure with `errno = e`. The answer to
`flock` may depend on the descriptor and on the operation requested. -/
structure Outcomes where
  open_errno : Option Int
  flock_errno : Int → Nat → Option Int
  close_errno : Option Int

/-- Search for the lowest descriptor number not in `fds`, from `n` upwards,
looking at no more than `fuel` candidates. -/
def lowest_free_from (fds : List Int) : Nat → Nat → Nat
  | 0, n => n
  | fuel + 1, n => if (n : Int) ∈ fds then lowest_free_from fds fuel (n + 1) else n

/-- The lowest descriptor number not in `fds`: the one a successful `open`
returns. -/
def lowest_free (fds : List Int) : Nat :=
  lowest_free_from fds fds.length 0

/-- The call `open(path, flags, mode)`: -1 with `errno` set on failure, else the
lowest unused descriptor, which becomes open. -/
def sys_open (path : String) (flags : Nat) (mode : Int) (err : Option Int) (k : Kernel) :
    Int × Kernel :=
  match err with
  | some e =>
    (-1, { k with errno := e, trace := k.trace ++ [Syscall.sys_open path flags mode (-1)] })
  | none =>
    let fd : Int := lowest_free k.open_fds
    (fd, { k with open_fds := fd :: k.open_fds,
                  trace := k.trace ++ [Syscall.sys_open path flags mode fd] })

/-- The call `flock(fd, operation)`: fails with `EBADF` on a descriptor that is
not open, fails with the given error when the kernel says so, and otherwise
records the lock and returns 0. -/
def sys_flock (fd : Int) (operation : Nat) (err : Option Int) (k : Kernel) : Int × Kernel :=
  if fd ∉ k.open_fds then
    (-1, { k with errno := EBADF, trace := k.trace ++ [Syscall.sys_flock fd operation (-1)] })
  else
    match err with
    | some e =>
      (-1, { k with errno := e, trace := k.trace ++ [Syscall.sys_flock fd operation (-1)] })
    | none =>
      (0, { k with flocked := fd :: k.flocked,
                   trace := k.trace ++ [Syscall.sys_flock fd operation 0] })

/-- The call `close(fd)`: fails with `EBADF` on a descriptor that is not open;
on an open one the descriptor and its lock are released whether or not the
call reports an error (the Linux behaviour), and a reported error sets
`errno`. -/
def sys_close (fd : Int) (err : Option Int) (k : Kernel) : Int × Kernel :=
  if fd ∉ k.open_fds then
    (-1, { k with errno := EBADF, trace := k.trace ++ [Syscall.sys_close fd (-1)] })
  else
    let k1 : Kernel :=
      { k with open_fds := k.open_fds.filter (fun x => x ≠ fd),
               flocked := k.flocked.filter (fun x => x ≠ fd) }
    match err with
    | some e => (-1, { k1 with errno := e, trace := k.trace ++ [Syscall.sys_close fd (-1)] })
    | none => (0, { k1 with trace := k.trace ++ [Syscall.sys_close fd 0] })

/-! ## Locked open: `open_locked` -/

/-- Lines 250-278 in the build without `O_EXLOCK`. `va_mode` is the value
`va_arg(ap, int)` yields, read only when `flags & O_CREAT`.
```
fd = open(fname, flags, mode);
if (fd < 0)
        return(fd);
if (flock(fd, LOCK_EX|((flags & O_NONBLOCK)? LOCK_NB: 0)) < 0) {
        save_errno = errno;
        close(fd);
        errno = save_errno;
        return(-1);
}
return(fd);
``` -/
def open_locked (fname : String) (flags : Nat) (va_mode : Int) (o : Outcomes) (k : Kernel) :
    Int × Kernel :=
  let mode : Int := if flags &&& O_CREAT ≠ 0 then va_mode else 0
  let r := sys_open fname flags mode o.open_errno k
  let fd := r.1
  if fd < 0 then
    (fd, r.2)
  else
    let operation := LOCK_EX ||| (if flags &&& O_NONBLOCK ≠ 0 then LOCK_NB else 0)
    let f := sys_flock fd operation (o.flock_errno fd operation) r.2
    if f.1 < 0 then
      let save_errno := f.2.errno
      let c := sys_close fd o.close_errno f.2
      (-1, { c.2 with errno := save_errno })
    else
      (fd, f.2)

/-- The operation `open_locked` passes to `flock`. -/
def flock_operation (flags : Nat) : Nat :=
  LOCK_EX ||| (if flags &&& O_NONBLOCK ≠ 0 then LOCK_NB else 0)

/-- The mode `open_locked` passes to `open`. -/
def open_mode (flags : Nat) (va_mode : Int) : Int :=
  if flags &&& O_CREAT ≠ 0 then va_mode else 0

/-- The `flock` requests in a trace, as (descriptor, operation), oldest first. -/
def flock_requests : List Syscall → List (Int × Nat)
  | [] => []
  | Syscall.sys_flock fd operation _ :: cs => (fd, operation) :: flock_requests cs
  | _ :: cs => flock_requests cs

/-- The descriptors passed to `close` in a trace, oldest first. -/
def close_requests : List Syscall → List Int
  | [] => []
  | Syscall.sys_close fd _ :: cs => fd :: close_requests cs
  | _ :: cs => close_requests cs

/-! ## Prefix comparison: `strprefixcmp` -/

/-- The function `tolower` of `<ctype.h>` in the C locale, on a byte value. -/
def tolower (c : Nat) : Nat :=
  if 65 ≤ c ∧ c ≤ 90 then c + 32 else c

/-- The function `strlen`: a string is the bytes of the list up to the first
NUL, or all of them when there is none (the terminator then follows). -/
def strlen : List Nat → Nat
  | [] => 0
  | c :: cs => if c = 0 then 0 else strlen cs + 1

/-- The bytes of the C string stored in `s`: those before the first NUL. -/
def cstr (s : List Nat) : List Nat :=
  s.takeWhile (fun c => c ≠ 0)

/-- The function `strncasecmp(s1, s2, n)` of `<strings.h>`: compares at most `n`
bytes after `tolower`, stops at the first difference or at a common NUL, and
returns the difference of the two bytes where it stopped. -/
def strncasecmp : List Nat → List Nat → Nat → Int
  | _, _, 0 => 0
  | s1, s2, n + 1 =>
    let c1 := tolower (s1.headD 0)
    let c2 := tolower (s2.headD 0)
    if c1 ≠ c2 then (c1 : Int) - (c2 : Int)
    else if c1 = 0 then 0
    else strncasecmp s1.tail s2.tail n

/-- Lines 295-299.
```
return (strncasecmp(str, prefix, strlen(prefix)));
``` -/
def strprefixcmp (str pfx : List Nat) : Int :=
  strncasecmp str pfx (strlen pfx)

/-- Byte `i` of the C string stored in `s`; the terminating NUL at and past the
end. -/
def char_at (s : List Nat) (i : Nat) : Nat :=
  (cstr s).getD i 0

/-! ## Theorems: timeout controller -/

/-- The disable path returns `ret`, cancels the alarm, clears the flag, leaves
`sigbuf` alone, and sets the disposition to `SIG_IGN` when `sigaction` succeeds;
when it fails the disposition stays and one warning is logged. -/
theorem do_timeout_disable_spec (ret : Int) (ok : Bool) (s : Proc) :
    (do_timeout_disable ret ok s).1 = ret ∧
    (do_timeout_disable ret ok s).2.pending_alarm = 0 ∧
    (do_timeout_disable ret ok s).2.sigbuf_valid = 0 ∧
    (do_timeout_disable ret ok s).2.sigbuf = s.sigbuf ∧
    (do_timeout_disable ret ok s).2.sigalrm_action =
      (if ok then Handler.SIG_IGN else s.sigalrm_action) ∧
    (do_timeout_disable ret ok s).2.syslog =
      (if ok then s.syslog else s.syslog ++ ["can not remove signal handler: %m"]) := by
  cases ok <;> simp [do_timeout_disable, sigaction, alarm, syslog_warning]

/-- A call with `timeout = 0` is the disable path with `ret = 0`. -/
theorem do_timeout_zero (dojmp : Int) (here : Nat) (ok : Bool) (s : Proc) :
    do_timeout 0 dojmp here ok s = do_timeout_disable 0 ok s := by
  simp [do_timeout]

/-- A capturing call with `timeout` non-zero, field by field. -/
theorem do_timeout_arm_spec (timeout dojmp : Int) (here : Nat) (ok : Bool) (s : Proc)
    (ht : timeout ≠ 0) (hj : dojmp ≠ 0) :
    (do_timeout timeout dojmp here ok s).1 = 0 ∧
    (do_timeout timeout dojmp here ok s).2.sigbuf_valid = 1 ∧
    (do_timeout timeout dojmp here ok s).2.pending_alarm = (timeout % 2 ^ 32).toNat ∧
    (do_timeout timeout dojmp here ok s).2.sigbuf = some { here := here, timeout := timeout } ∧
    (do_timeout timeout dojmp here ok s).2.sigalrm_action =
      (if ok then Handler.sigalrm_handler else s.sigalrm_action) := by
  cases ok <;>
    simp [do_timeout, do_timeout_after_sigsetjmp, sigaction, alarm, syslog_warning, ht, hj]

/-- The handler returns without touching the state when the flag is clear. -/
theorem sigalrm_handler_unarmed (signo : Int) (s : Proc) (h : s.sigbuf_valid = 0) :
    sigalrm_handler signo s = Control.returned s := by
  simp [sigalrm_handler, h]

/-- With the flag clear a delivery never jumps, and leaves the state as it is
unless the disposition is `SIG_DFL`. -/
theorem deliver_unarmed (ok : Bool) (s : Proc) (h : s.sigbuf_valid = 0) :
    (deliver_SIGALRM ok s).jumped = false ∧
    (s.sigalrm_action ≠ Handler.SIG_DFL → (deliver_SIGALRM ok s).after = some s) ∧
    (s.sigalrm_action = Handler.SIG_DFL → deliver_SIGALRM ok s = Delivery.terminated) := by
  cases hd : s.sigalrm_action <;>
    simp [deliver_SIGALRM, hd, sigalrm_handler, h, Delivery.jumped, Delivery.after]

/-- An event that does not arm keeps the flag clear. -/
theorem exec_keeps_unarmed (s s1 : Proc) (e : Event) (he : e.arms = false)
    (h : s.sigbuf_valid = 0) (hx : exec s e = some s1) : s1.sigbuf_valid = 0 := by
  cases e with
  | sigalrm ok =>
    cases hd : s.sigalrm_action <;>
      simp [exec, deliver_SIGALRM, hd, sigalrm_handler, h, Delivery.after] at hx
    · subst hx; exact h
    · subst hx; exact h
  | call timeout dojmp here ok =>
    have ht : timeout = 0 := by simpa [Event.arms] using he
    subst ht
    simp only [exec, do_timeout_zero, Option.some.injEq] at hx
    subst hx
    exact (do_timeout_disable_spec 0 ok s).2.2.1

/-- A run without arming events keeps the flag clear. -/
theorem run_keeps_unarmed (evs : List Event) :
    ∀ (s s1 : Proc), (∀ e ∈ evs, e.arms = false) → s.sigbuf_valid = 0 →
      run s evs = some s1 → s1.sigbuf_valid = 0 := by
  induction evs with
  | nil =>
    intro s s1 _ h hr
    simp only [run, Option.some.injEq] at hr
    subst hr; exact h
  | cons e es ih =>
    intro s s1 hall h hr
    simp only [run] at hr
    cases hx : exec s e with
    | none => simp [hx] at hr
    | some s2 =>
      simp only [hx, Option.some_bind] at hr
      exact ih s2 s1 (fun e1 he1 => hall e1 (List.mem_cons_of_mem _ he1))
        (exec_keeps_unarmed s s2 e (hall e (List.mem_cons_self _ _)) h hx) hr

/-- An event that does not arm never installs `sigalrm_handler`. -/
theorem exec_keeps_uninstalled (s s1 : Proc) (e : Event) (he : e.arms = false)
    (h : s.sigalrm_action ≠ Handler.sigalrm_handler) (hx : exec s e = some s1) :
    s1.sigalrm_action ≠ Handler.sigalrm_handler := by
  cases e with
  | sigalrm ok =>
    cases hd : s.sigalrm_action <;>
      simp [exec, deliver_SIGALRM, hd, Delivery.after] at hx
    · subst hx; exact h
    · exact absurd hd h
  | call timeout dojmp here ok =>
    have ht : timeout = 0 := by simpa [Event.arms] using he
    subst ht
    simp only [exec, do_timeout_zero, Option.some.injEq] at hx
    subst hx
    rw [(do_timeout_disable_spec 0 ok s).2.2.2.2.1]
    cases ok
    · simpa using h
    · simp

/-- A run without arming events never installs `sigalrm_handler`. -/
theorem run_keeps_uninstalled (evs : List Event) :
    ∀ (s s1 : Proc), (∀ e ∈ evs, e.arms = false) →
      s.sigalrm_action ≠ Handler.sigalrm_handler →
      run s evs = some s1 → s1.sigalrm_action ≠ Handler.sigalrm_handler := by
  induction evs with
  | nil =>
    intro s s1 _ h hr
    simp only [run, Option.some.injEq] at hr
    subst hr; exact h
  | cons e es ih =>
    intro s s1 hall h hr
    simp only [run] at hr
    cases hx : exec s e with
    | none => simp [hx] at hr
    | some s2 =>
      simp only [hx, Option.some_bind] at hr
      exact ih s2 s1 (fun e1 he1 => hall e1 (List.mem_cons_of_mem _ he1))
        (exec_keeps_uninstalled s s2 e (hall e (List.mem_cons_self _ _)) h hx) hr

/-- The conversion of `alarm` keeps a positive `int`. -/
theorem alarm_seconds_of_int (timeout : Int) (hpos : 0 < timeout) (hint : timeout < 2 ^ 31) :
    (((timeout % 2 ^ 32).toNat : Nat) : Int) = timeout := by
  have h1 : timeout % 2 ^ 32 = timeout := Int.emod_eq_of_lt (by omega) (by omega)
  rw [h1]
  exact Int.toNat_of_nonneg (by omega)

/-- C3, as stated, fails: after an armed deadline is disarmed by
`do_timeout(0, 0)` with `sigaction` succeeding, the disposition of SIGALRM is
`SIG_IGN`, not the default `SIG_DFL`. -/
theorem C3_counterexample :
    ¬ ((do_timeout 0 0 2 true (do_timeout 5 1 1 true Proc.init).2).1 = 0 ∧
       (do_timeout 0 0 2 true (do_timeout 5 1 1 true Proc.init).2).2.pending_alarm = 0 ∧
       (do_timeout 0 0 2 true (do_timeout 5 1 1 true Proc.init).2).2.sigbuf_valid = 0 ∧
       (do_timeout 0 0 2 true (do_timeout 5 1 1 true Proc.init).2).2.sigalrm_action
         = Handler.SIG_DFL) := by
  decide

/-- C3, amended: for every `dojmp` and every prior state, `do_timeout(0, dojmp)`
returns 0, cancels any pending alarm and clears `sigbuf_valid`; it asks for
SIGALRM to be ignored, so the disposition afterwards is `SIG_IGN` when the
`sigaction` call succeeds, and is the one before the call, with a warning
logged, when it fails. -/
theorem C3_do_timeout_zero_disarms (dojmp : Int) (here : Nat) (ok : Bool) (s : Proc) :
    (do_timeout 0 dojmp here ok s).1 = 0 ∧
    (do_timeout 0 dojmp here ok s).2.pending_alarm = 0 ∧
    (do_timeout 0 dojmp here ok s).2.sigbuf_valid = 0 ∧
    (do_timeout 0 dojmp here ok s).2.sigalrm_action =
      (if ok then Handler.SIG_IGN else s.sigalrm_action) ∧
    (do_timeout 0 dojmp here ok s).2.syslog =
      (if ok then s.syslog else s.syslog ++ ["can not remove signal handler: %m"]) := by
  rw [do_timeout_zero]
  obtain ⟨h1, h2, h3, _, h5, h6⟩ := do_timeout_disable_spec 0 ok s
  exact ⟨h1, h2, h3, h5, h6⟩

/-- C4: for every `timeout > 0` (an `int`), a direct call `do_timeout(timeout, 1)`
returns 0, sets `sigbuf_valid = 1` and schedules the alarm for exactly
`timeout` seconds, whatever the outcome `ok` of the `sigaction` call; so the
three are the same for a successful and for a failed `sigaction`. -/
theorem C4_arm_returns_normal (timeout : Int) (here : Nat) (s : Proc)
    (hpos : 0 < timeout) (hint : timeout < 2 ^ 31) :
    (∀ ok : Bool,
      (do_timeout timeout 1 here ok s).1 = 0 ∧
      (do_timeout timeout 1 here ok s).2.sigbuf_valid = 1 ∧
      ((do_timeout timeout 1 here ok s).2.pending_alarm : Int) = timeout) ∧
    (do_timeout timeout 1 here true s).1 = (do_timeout timeout 1 here false s).1 ∧
    (do_timeout timeout 1 here true s).2.sigbuf_valid
      = (do_timeout timeout 1 here false s).2.sigbuf_valid ∧
    (do_timeout timeout 1 here true s).2.pending_alarm
      = (do_timeout timeout 1 here false s).2.pending_alarm := by
  have ht : timeout ≠ 0 := by omega
  have key : ∀ ok : Bool,
      (do_timeout timeout 1 here ok s).1 = 0 ∧
      (do_timeout timeout 1 here ok s).2.sigbuf_valid = 1 ∧
      (do_timeout timeout 1 here ok s).2.pending_alarm = (timeout % 2 ^ 32).toNat := by
    intro ok
    obtain ⟨h1, h2, h3, _, _⟩ := do_timeout_arm_spec timeout 1 here ok s ht (by decide)
    exact ⟨h1, h2, h3⟩
  refine ⟨fun ok => ⟨(key ok).1, (key ok).2.1, ?_⟩, ?_, ?_, ?_⟩
  · rw [(key ok).2.2]; exact alarm_seconds_of_int timeout hpos hint
  · rw [(key true).1, (key false).1]
  · rw [(key true).2.1, (key false).2.1]
  · rw [(key true).2.2, (key false).2.2]

/-- C4 at `timeout = 5` from the initial state. -/
theorem C4_arm_returns_normal_witness :
    (0 : Int) < 5 ∧ (5 : Int) < 2 ^ 31 ∧
    (do_timeout 5 1 1 false Proc.init).1 = 0 ∧
    (do_timeout 5 1 1 false Proc.init).2.sigbuf_valid = 1 ∧
    ((do_timeout 5 1 1 false Proc.init).2.pending_alarm : Int) = 5 :=
  ⟨by decide, by decide,
    ((C4_arm_returns_normal 5 1 Proc.init (by decide) (by decide)).1 false).1,
    ((C4_arm_returns_normal 5 1 Proc.init (by decide) (by decide)).1 false).2.1,
    ((C4_arm_returns_normal 5 1 Proc.init (by decide) (by decide)).1 false).2.2⟩

/-- C5: the code misses what the claim says. With the deadline armed by
`do_timeout(5, 1)` in a fresh process, that call has returned 0 when SIGALRM
reaches `sigalrm_handler`; the handler calls `siglongjmp(sigbuf, 1)` on the
buffer filled by the returned activation, so the delivery is undefined: there
is no second return of `do_timeout` and no state in which the program is known
to continue. The code placed after `sigsetjmp` for a non-zero return, had it
been reached, returns 1 with the alarm cancelled, the flag cleared and SIGALRM
ignored. -/
theorem C5_jump_into_returned_activation :
    (do_timeout 5 1 1 true Proc.init).1 = 0 ∧
    (do_timeout 5 1 1 true Proc.init).2.sigbuf_valid = 1 ∧
    (do_timeout 5 1 1 true Proc.init).2.sigalrm_action = Handler.sigalrm_handler ∧
    sigalrm_handler SIGALRM (do_timeout 5 1 1 true Proc.init).2 =
      Control.siglongjmp (some { here := 1, timeout := 5 }) 1
        (do_timeout 5 1 1 true Proc.init).2 ∧
    deliver_SIGALRM true (do_timeout 5 1 1 true Proc.init).2 = Delivery.undefined ∧
    (deliver_SIGALRM true (do_timeout 5 1 1 true Proc.init).2).after = none ∧
    do_timeout_after_sigsetjmp 1 5 true (do_timeout 5 1 1 true Proc.init).2 =
      (1, { sigbuf := some { here := 1, timeout := 5 }, sigbuf_valid := 0, pending_alarm := 0,
            sigalrm_action := Handler.SIG_IGN, syslog := [] }) := by
  decide

/-- C6: for every `timeout > 0`, after `do_timeout(timeout, 1)` followed by
`do_timeout(0, 0)`, in every state reached through SIGALRM deliveries and
`do_timeout` calls that do not arm, `sigalrm_handler` returns without a
`siglongjmp` and a SIGALRM delivery transfers control to no resume point. -/
theorem C6_no_jump_after_disarm (timeout : Int) (h1 h2 : Nat) (ok1 ok2 : Bool) (s0 : Proc)
    (evs : List Event) (s : Proc) (_hpos : 0 < timeout)
    (hquiet : ∀ e ∈ evs, e.arms = false)
    (hrun : run (do_timeout 0 0 h2 ok2 (do_timeout timeout 1 h1 ok1 s0).2).2 evs = some s) :
    sigalrm_handler SIGALRM s = Control.returned s ∧
    ∀ ok : Bool, (deliver_SIGALRM ok s).jumped = false := by
  have hd : (do_timeout 0 0 h2 ok2 (do_timeout timeout 1 h1 ok1 s0).2).2.sigbuf_valid = 0 := by
    rw [do_timeout_zero]
    exact (do_timeout_disable_spec 0 ok2 _).2.2.1
  have hs : s.sigbuf_valid = 0 := run_keeps_unarmed evs _ s hquiet hd hrun
  exact ⟨sigalrm_handler_unarmed SIGALRM s hs, fun ok => (deliver_unarmed ok s hs).1⟩

/-- C6 at `timeout = 5`: the disarm fails to remove the handler, a SIGALRM
arrives, `do_timeout(0, 1)` is called, and another SIGALRM arrives. -/
theorem C6_no_jump_after_disarm_witness :
    sigalrm_handler SIGALRM
        { sigbuf := some { here := 1, timeout := 5 }, sigbuf_valid := 0, pending_alarm := 0,
          sigalrm_action := Handler.sigalrm_handler,
          syslog := ["can not remove signal handler: %m",
                     "can not remove signal handler: %m"] } =
      Control.returned
        { sigbuf := some { here := 1, timeout := 5 }, sigbuf_valid := 0, pending_alarm := 0,
          sigalrm_action := Handler.sigalrm_handler,
          syslog := ["can not remove signal handler: %m",
                     "can not remove signal handler: %m"] } ∧
    (deliver_SIGALRM true
        { sigbuf := some { here := 1, timeout := 5 }, sigbuf_valid := 0, pending_alarm := 0,
          sigalrm_action := Handler.sigalrm_handler,
          syslog := ["can not remove signal handler: %m",
                     "can not remove signal handler: %m"] }).jumped = false :=
  ⟨(C6_no_jump_after_disarm 5 1 2 true false Proc.init
      [Event.sigalrm true, Event.call 0 1 3 false, Event.sigalrm false]
      { sigbuf := some { here := 1, timeout := 5 }, sigbuf_valid := 0, pending_alarm := 0,
        sigalrm_action := Handler.sigalrm_handler,
        syslog := ["can not remove signal handler: %m",
                   "can not remove signal handler: %m"] }
      (by decide) (by decide) (by decide)).1,
   (C6_no_jump_after_disarm 5 1 2 true false Proc.init
      [Event.sigalrm true, Event.call 0 1 3 false, Event.sigalrm false]
      { sigbuf := some { here := 1, timeout := 5 }, sigbuf_valid := 0, pending_alarm := 0,
        sigalrm_action := Handler.sigalrm_handler,
        syslog := ["can not remove signal handler: %m",
                   "can not remove signal handler: %m"] }
      (by decide) (by decide) (by decide)).2 true⟩

/-- C7, as stated, fails: when the `sigaction` call of the second arm fails, the
disposition of SIGALRM after it is `SIG_IGN` if an arm/disarm pair came before
and `SIG_DFL` if the arm is the first call of the process. -/
theorem C7_counterexample :
    (do_timeout 3 1 3 false
        (do_timeout 0 0 2 true (do_timeout 5 1 1 true Proc.init).2).2).2.sigalrm_action
      = Handler.SIG_IGN ∧
    (do_timeout 3 1 3 false Proc.init).2.sigalrm_action = Handler.SIG_DFL := by
  decide

/-- C7, amended: for every `t1 > 0` and `t2 > 0`, `do_timeout(t2, 1)` after the
pair `do_timeout(t1, 1); do_timeout(0, 0)` gives the same return value, the
same `sigbuf_valid`, the same scheduled alarm and the same captured resume
point as `do_timeout(t2, 1)` from the initial process state, and the same
disposition of SIGALRM when its `sigaction` call succeeds. -/
theorem C7_second_arm_like_first (t1 t2 : Int) (h1 h2 h3 : Nat) (ok1 ok2 ok3 : Bool)
    (hpos1 : 0 < t1) (hpos2 : 0 < t2) :
    (do_timeout t2 1 h3 ok3 (do_timeout 0 0 h2 ok2 (do_timeout t1 1 h1 ok1 Proc.init).2).2).1
      = (do_timeout t2 1 h3 ok3 Proc.init).1 ∧
    (do_timeout t2 1 h3 ok3
        (do_timeout 0 0 h2 ok2 (do_timeout t1 1 h1 ok1 Proc.init).2).2).2.sigbuf_valid
      = (do_timeout t2 1 h3 ok3 Proc.init).2.sigbuf_valid ∧
    (do_timeout t2 1 h3 ok3
        (do_timeout 0 0 h2 ok2 (do_timeout t1 1 h1 ok1 Proc.init).2).2).2.pending_alarm
      = (do_timeout t2 1 h3 ok3 Proc.init).2.pending_alarm ∧
    (do_timeout t2 1 h3 ok3
        (do_timeout 0 0 h2 ok2 (do_timeout t1 1 h1 ok1 Proc.init).2).2).2.sigbuf
      = (do_timeout t2 1 h3 ok3 Proc.init).2.sigbuf ∧
    (ok3 = true →
      (do_timeout t2 1 h3 ok3
          (do_timeout 0 0 h2 ok2 (do_timeout t1 1 h1 ok1 Proc.init).2).2).2.sigalrm_action
        = (do_timeout t2 1 h3 ok3 Proc.init).2.sigalrm_action) := by
  have ht1 : t1 ≠ 0 := by omega
  have ht2 : t2 ≠ 0 := by omega
  obtain ⟨a1, a2, a3, a4, a5⟩ := do_timeout_arm_spec t2 1 h3 ok3
    (do_timeout 0 0 h2 ok2 (do_timeout t1 1 h1 ok1 Proc.init).2).2 ht2 (by decide)
  obtain ⟨b1, b2, b3, b4, b5⟩ := do_timeout_arm_spec t2 1 h3 ok3 Proc.init ht2 (by decide)
  refine ⟨?_, ?_, ?_, ?_, ?_⟩
  · rw [a1, b1]
  · rw [a2, b2]
  · rw [a3, b3]
  · rw [a4, b4]
  · intro hok
    rw [a5, b5]
    simp [hok]

/-- C7 (amended) at `t1 = 5`, `t2 = 3`, every `sigaction` call succeeding. -/
theorem C7_second_arm_like_first_witness :
    (do_timeout 3 1 3 true (do_timeout 0 0 2 true (do_timeout 5 1 1 true Proc.init).2).2).1
      = (do_timeout 3 1 3 true Proc.init).1 ∧
    (do_timeout 3 1 3 true
        (do_timeout 0 0 2 true (do_timeout 5 1 1 true Proc.init).2).2).2.sigalrm_action
      = (do_timeout 3 1 3 true Proc.init).2.sigalrm_action :=
  ⟨(C7_second_arm_like_first 5 3 1 2 3 true true true (by decide) (by decide)).1,
   (C7_second_arm_like_first 5 3 1 2 3 true true true (by decide) (by decide)).2.2.2.2 rfl⟩

/-- C8, as stated, fails: in the initial process state, where no deadline was
ever armed, SIGALRM has its default disposition and its receipt ends the
process instead of leaving the state unchanged. -/
theorem C8_counterexample :
    run Proc.init [] = some Proc.init ∧
    deliver_SIGALRM true Proc.init = Delivery.terminated ∧
    (deliver_SIGALRM true Proc.init).after ≠ some Proc.init := by
  decide

/-- C8, amended: in every state reached from the initial one without a call of
`do_timeout` with `timeout` non-zero, `sigbuf_valid` is 0, `sigalrm_handler`
returns without changing the state, and the receipt of SIGALRM makes no jump
to a resume point; the receipt leaves
the process state unchanged when the disposition is no longer the default
(`do_timeout(0, ...)` has set `SIG_IGN`), and ends the process under the
default disposition. -/
theorem C8_never_armed (evs : List Event) (s : Proc)
    (hquiet : ∀ e ∈ evs, e.arms = false) (hrun : run Proc.init evs = some s) :
    s.sigbuf_valid = 0 ∧
    sigalrm_handler SIGALRM s = Control.returned s ∧
    ∀ ok : Bool,
      (deliver_SIGALRM ok s).jumped = false ∧
      (s.sigalrm_action ≠ Handler.SIG_DFL → deliver_SIGALRM ok s = Delivery.ignored s) ∧
      (s.sigalrm_action = Handler.SIG_DFL → deliver_SIGALRM ok s = Delivery.terminated) := by
  have hs : s.sigbuf_valid = 0 := run_keeps_unarmed evs Proc.init s hquiet rfl hrun
  have hu : s.sigalrm_action ≠ Handler.sigalrm_handler :=
    run_keeps_uninstalled evs Proc.init s hquiet (by decide) hrun
  refine ⟨hs, sigalrm_handler_unarmed SIGALRM s hs, fun ok => ⟨(deliver_unarmed ok s hs).1, ?_, ?_⟩⟩
  · intro hne
    cases hd : s.sigalrm_action with
    | SIG_DFL => exact absurd hd hne
    | SIG_IGN => simp [deliver_SIGALRM, hd]
    | sigalrm_handler => exact absurd hd hu
  · exact (deliver_unarmed ok s hs).2.2

/-- C8 (amended) after one successful `do_timeout(0, 0)`: a SIGALRM is ignored. -/
theorem C8_never_armed_witness :
    deliver_SIGALRM true
        { sigbuf := none, sigbuf_valid := 0, pending_alarm := 0,
          sigalrm_action := Handler.SIG_IGN, syslog := [] } =
      Delivery.ignored
        { sigbuf := none, sigbuf_valid := 0, pending_alarm := 0,
          sigalrm_action := Handler.SIG_IGN, syslog := [] } :=
  ((C8_never_armed [Event.call 0 0 1 true] _ (by decide) (by decide)).2.2 true).2.1 (by decide)

/-! ## Theorems: locked open -/

/-- The search either ends on a number not in `fds`, or used all its fuel on
numbers that are all in `fds`. -/
theorem lowest_free_from_spec (fds : List Int) :
    ∀ (fuel n : Nat),
      ((lowest_free_from fds fuel n : Nat) : Int) ∉ fds ∨
      (lowest_free_from fds fuel n = n + fuel ∧
        ∀ k : Nat, n ≤ k → k < n + fuel → (k : Int) ∈ fds) := by
  intro fuel
  induction fuel with
  | zero =>
    intro n
    right
    exact ⟨rfl, fun k h1 h2 => absurd h2 (by omega)⟩
  | succ fuel ih =>
    intro n
    by_cases hn : (n : Int) ∈ fds
    · simp only [lowest_free_from, hn, if_true]
      rcases ih (n + 1) with h | ⟨h1, h2⟩
      · exact Or.inl h
      · right
        refine ⟨by omega, fun k hk1 hk2 => ?_⟩
        by_cases hkn : k = n
        · subst hkn; exact hn
        · exact h2 k (by omega) (by omega)
    · left
      simp [lowest_free_from, hn]

/-- The descriptor a successful `open` returns was not open before. -/
theorem lowest_free_not_mem (fds : List Int) : ((lowest_free fds : Nat) : Int) ∉ fds := by
  rcases lowest_free_from_spec fds fds.length 0 with h | ⟨h1, h2⟩
  · exact h
  · intro hmem
    have hr : lowest_free fds = fds.length := by
      simpa [lowest_free] using h1
    rw [hr] at hmem
    have hall : ∀ k : Nat, k < fds.length + 1 → (k : Int) ∈ fds := by
      intro k hk
      by_cases hkl : k = fds.length
      · subst hkl; exact hmem
      · exact h2 k (by omega) (by omega)
    have hsub : (Finset.range (fds.length + 1)).image (fun k : Nat => (k : Int)) ⊆ fds.toFinset := by
      intro x hx
      rcases Finset.mem_image.mp hx with ⟨k, hk, rfl⟩
      exact List.mem_toFinset.mpr (hall k (Finset.mem_range.mp hk))
    have hcard := Finset.card_le_card hsub
    rw [Finset.card_image_of_injective _ Nat.cast_injective, Finset.card_range] at hcard
    have := List.toFinset_card_le fds
    omega

/-- The `flock` requests of a concatenation. -/
theorem flock_requests_append (a b : List Syscall) :
    flock_requests (a ++ b) = flock_requests a ++ flock_requests b := by
  induction a with
  | nil => rfl
  | cons c cs ih => cases c <;> simp [flock_requests, ih]

/-- The `close` requests of a concatenation. -/
theorem close_requests_append (a b : List Syscall) :
    close_requests (a ++ b) = close_requests a ++ close_requests b := by
  induction a with
  | nil => rfl
  | cons c cs ih => cases c <;> simp [close_requests, ih]

/-- When `open` fails, `open_locked` returns -1 after that one call. -/
theorem open_locked_open_fails (fname : String) (flags : Nat) (va_mode : Int) (o : Outcomes)
    (k : Kernel) (e : Int) (ho : o.open_errno = some e) :
    open_locked fname flags va_mode o k =
      (-1, { k with errno := e,
                    trace := k.trace ++
                      [Syscall.sys_open fname flags (open_mode flags va_mode) (-1)] }) := by
  simp [open_locked, sys_open, ho, open_mode]

/-- When `open` succeeds and `flock` fails, `open_locked` closes the descriptor
and returns -1 with the `errno` of `flock`. -/
theorem open_locked_flock_fails (fname : String) (flags : Nat) (va_mode : Int) (o : Outcomes)
    (k : Kernel) (e : Int) (ho : o.open_errno = none)
    (hf : o.flock_errno (lowest_free k.open_fds) (flock_operation flags) = some e) :
    open_locked fname flags va_mode o k =
      (-1, { open_fds := k.open_fds,
             flocked := k.flocked.filter (fun x => x ≠ ((lowest_free k.open_fds : Nat) : Int)),
             errno := e,
             trace := k.trace ++
               [Syscall.sys_open fname flags (open_mode flags va_mode) (lowest_free k.open_fds),
                Syscall.sys_flock (lowest_free k.open_fds) (flock_operation flags) (-1),
                Syscall.sys_close (lowest_free k.open_fds)
                  (match o.close_errno with | some _ => -1 | none => 0)] }) := by
  have hfree := lowest_free_not_mem k.open_fds
  have hnn : ¬ (((lowest_free k.open_fds : Nat) : Int) < 0) := by omega
  simp only [flock_operation, ne_eq, ite_not] at hf
  have hall : ∀ a ∈ k.open_fds, ¬ a = ((lowest_free k.open_fds : Nat) : Int) :=
    fun a ha e1 => hfree (e1 ▸ ha)
  cases hc : o.close_errno <;>
    simp [open_locked, sys_open, sys_flock, sys_close, ho, hf, hc, open_mode, flock_operation,
      hnn] <;>
    exact hall

/-- When `open` and `flock` succeed, `open_locked` returns the descriptor, open
and locked. -/
theorem open_locked_succeeds (fname : String) (flags : Nat) (va_mode : Int) (o : Outcomes)
    (k : Kernel) (ho : o.open_errno = none)
    (hf : o.flock_errno (lowest_free k.open_fds) (flock_operation flags) = none) :
    open_locked fname flags va_mode o k =
      (((lowest_free k.open_fds : Nat) : Int),
        { open_fds := ((lowest_free k.open_fds : Nat) : Int) :: k.open_fds,
          flocked := ((lowest_free k.open_fds : Nat) : Int) :: k.flocked,
          errno := k.errno,
          trace := k.trace ++
            [Syscall.sys_open fname flags (open_mode flags va_mode) (lowest_free k.open_fds),
             Syscall.sys_flock (lowest_free k.open_fds) (flock_operation flags) 0] }) := by
  have hnn : ¬ (((lowest_free k.open_fds : Nat) : Int) < 0) := by omega
  simp only [flock_operation, ne_eq, ite_not] at hf
  simp [open_locked, sys_open, sys_flock, ho, hf, open_mode, flock_operation, hnn]

/-- C1: in the build without `O_EXLOCK`, whenever `open_locked` returns a
negative value the set of open descriptors is the one before the call, and
`errno` is the error of the `open` that failed or, when `open` succeeded, the
error of the `flock` that failed, whatever `close` reported. -/
theorem C1_failure_leaks_nothing (fname : String) (flags : Nat) (va_mode : Int) (o : Outcomes)
    (k : Kernel) (hneg : (open_locked fname flags va_mode o k).1 < 0) :
    (open_locked fname flags va_mode o k).2.open_fds = k.open_fds ∧
    ((∃ e, o.open_errno = some e ∧ (open_locked fname flags va_mode o k).2.errno = e) ∨
     (o.open_errno = none ∧
      ∃ e, o.flock_errno (lowest_free k.open_fds) (flock_operation flags) = some e ∧
        (open_locked fname flags va_mode o k).2.errno = e)) := by
  cases ho : o.open_errno with
  | some e =>
    rw [open_locked_open_fails fname flags va_mode o k e ho]
    exact ⟨rfl, Or.inl ⟨e, rfl, rfl⟩⟩
  | none =>
    cases hf : o.flock_errno (lowest_free k.open_fds) (flock_operation flags) with
    | some e =>
      rw [open_locked_flock_fails fname flags va_mode o k e ho hf]
      exact ⟨rfl, Or.inr ⟨rfl, e, rfl, rfl⟩⟩
    | none =>
      rw [open_locked_succeeds fname flags va_mode o k ho hf] at hneg
      exact absurd hneg (by simp)

/-- C1 with descriptors 0, 1, 2 open: `open` returns 3, the non-blocking `flock`
fails with error 11, `close` reports error 5. -/
theorem C1_failure_leaks_nothing_witness :
    (open_locked "q" 2048 0
        { open_errno := none, flock_errno := fun _ _ => some 11, close_errno := some 5 }
        { open_fds := [0, 1, 2], flocked := [], errno := 0, trace := [] }).1 < 0 ∧
    (open_locked "q" 2048 0
        { open_errno := none, flock_errno := fun _ _ => some 11, close_errno := some 5 }
        { open_fds := [0, 1, 2], flocked := [], errno := 0, trace := [] }).2.open_fds
      = [0, 1, 2] :=
  ⟨by decide,
   (C1_failure_leaks_nothing "q" 2048 0
      { open_errno := none, flock_errno := fun _ _ => some 11, close_errno := some 5 }
      { open_fds := [0, 1, 2], flocked := [], errno := 0, trace := [] } (by decide)).1⟩

/-- C2: in the build without `O_EXLOCK`, if `open_locked` returns `fd >= 0` then
the calls it made are exactly an `open` that returned `fd` and a `flock` on `fd`
with `LOCK_EX` set that returned 0; `fd` was not open before, is open and
locked afterwards, and no `close` was issued. -/
theorem C2_success_is_locked (fname : String) (flags : Nat) (va_mode : Int) (o : Outcomes)
    (k : Kernel) (hret : 0 ≤ (open_locked fname flags va_mode o k).1) :
    (open_locked fname flags va_mode o k).2.trace =
      k.trace ++
        [Syscall.sys_open fname flags (open_mode flags va_mode)
            (open_locked fname flags va_mode o k).1,
         Syscall.sys_flock (open_locked fname flags va_mode o k).1 (flock_operation flags) 0] ∧
    flock_operation flags &&& LOCK_EX = LOCK_EX ∧
    (open_locked fname flags va_mode o k).1 ∉ k.open_fds ∧
    (open_locked fname flags va_mode o k).1 ∈ (open_locked fname flags va_mode o k).2.open_fds ∧
    (open_locked fname flags va_mode o k).1 ∈ (open_locked fname flags va_mode o k).2.flocked ∧
    close_requests (open_locked fname flags va_mode o k).2.trace = close_requests k.trace := by
  have hex : flock_operation flags &&& LOCK_EX = LOCK_EX := by
    unfold flock_operation
    split <;> decide
  cases ho : o.open_errno with
  | some e =>
    rw [open_locked_open_fails fname flags va_mode o k e ho] at hret
    exact absurd hret (by simp)
  | none =>
    cases hf : o.flock_errno (lowest_free k.open_fds) (flock_operation flags) with
    | some e =>
      rw [open_locked_flock_fails fname flags va_mode o k e ho hf] at hret
      exact absurd hret (by simp)
    | none =>
      rw [open_locked_succeeds fname flags va_mode o k ho hf]
      refine ⟨rfl, hex, lowest_free_not_mem k.open_fds, ?_, ?_, ?_⟩
      · exact List.mem_cons_self _ _
      · exact List.mem_cons_self _ _
      · simp [close_requests_append, close_requests]

/-- C2 with descriptors 0, 1, 2 open: `open_locked` returns 3, open and locked. -/
theorem C2_success_is_locked_witness :
    (0 : Int) ≤ (open_locked "q" 0 0
        { open_errno := none, flock_errno := fun _ _ => none, close_errno := none }
        { open_fds := [0, 1, 2], flocked := [], errno := 0, trace := [] }).1 ∧
    (open_locked "q" 0 0
        { open_errno := none, flock_errno := fun _ _ => none, close_errno := none }
        { open_fds := [0, 1, 2], flocked := [], errno := 0, trace := [] }).1 ∈
      (open_locked "q" 0 0
        { open_errno := none, flock_errno := fun _ _ => none, close_errno := none }
        { open_fds := [0, 1, 2], flocked := [], errno := 0, trace := [] }).2.flocked :=
  ⟨by decide,
   (C2_success_is_locked "q" 0 0
      { open_errno := none, flock_errno := fun _ _ => none, close_errno := none }
      { open_fds := [0, 1, 2], flocked := [], errno := 0, trace := [] } (by decide)).2.2.2.2.1⟩

/-- C9: in the build without `O_EXLOCK`, when `open` succeeds `open_locked` makes
exactly one `flock` request, on the descriptor `open` returned; its operation
is `LOCK_EX|LOCK_NB` if and only if `flags & O_NONBLOCK` is non-zero, and is
plain `LOCK_EX` if and only if it is zero. -/
theorem C9_one_flock_request (fname : String) (flags : Nat) (va_mode : Int) (o : Outcomes)
    (k : Kernel) (ho : o.open_errno = none) :
    Syscall.sys_open fname flags (open_mode flags va_mode) (lowest_free k.open_fds) ∈
      (open_locked fname flags va_mode o k).2.trace ∧
    flock_requests (open_locked fname flags va_mode o k).2.trace =
      flock_requests k.trace ++ [(((lowest_free k.open_fds : Nat) : Int), flock_operation flags)] ∧
    (flock_operation flags = LOCK_EX ||| LOCK_NB ↔ flags &&& O_NONBLOCK ≠ 0) ∧
    (flock_operation flags = LOCK_EX ↔ flags &&& O_NONBLOCK = 0) := by
  have hop1 : flock_operation flags = LOCK_EX ||| LOCK_NB ↔ flags &&& O_NONBLOCK ≠ 0 := by
    unfold flock_operation
    by_cases h : flags &&& O_NONBLOCK = 0
    · simp only [h, ne_eq, not_true_eq_false, if_false, iff_false]; decide
    · simp [h]
  have hop2 : flock_operation flags = LOCK_EX ↔ flags &&& O_NONBLOCK = 0 := by
    unfold flock_operation
    by_cases h : flags &&& O_NONBLOCK = 0
    · simp [h]
    · simp only [h, ne_eq, not_false_eq_true, if_true, iff_false]; decide
  cases hf : o.flock_errno (lowest_free k.open_fds) (flock_operation flags) with
  | some e =>
    rw [open_locked_flock_fails fname flags va_mode o k e ho hf]
    refine ⟨by simp, ?_, hop1, hop2⟩
    simp [flock_requests_append, flock_requests]
  | none =>
    rw [open_locked_succeeds fname flags va_mode o k ho hf]
    refine ⟨by simp, ?_, hop1, hop2⟩
    simp [flock_requests_append, flock_requests]

/-- C9 with `flags = O_NONBLOCK`: the one request is `flock(3, LOCK_EX|LOCK_NB)`. -/
theorem C9_one_flock_request_witness :
    flock_requests (open_locked "q" 2048 0
        { open_errno := none, flock_errno := fun _ _ => some 11, close_errno := none }
        { open_fds := [0, 1, 2], flocked := [], errno := 0, trace := [] }).2.trace
      = [] ++ [(3, 6)] :=
  (C9_one_flock_request "q" 2048 0
      { open_errno := none, flock_errno := fun _ _ => some 11, close_errno := none }
      { open_fds := [0, 1, 2], flocked := [], errno := 0, trace := [] } rfl).2.1

/-! ## Theorems: prefix comparison -/

/-- The byte `tolower` yields is NUL only for NUL. -/
theorem tolower_eq_zero (c : Nat) : tolower c = 0 ↔ c = 0 := by
  unfold tolower
  split <;> omega

/-- The length `strlen` reports is the length of the stored string. -/
theorem strlen_eq_length_cstr (s : List Nat) : strlen s = (cstr s).length := by
  induction s with
  | nil => rfl
  | cons c cs ih =>
    by_cases hc : c = 0
    · simp [strlen, cstr, hc]
    · simp only [strlen, hc, if_false, ih]
      simp [cstr, List.takeWhile, hc]

/-- Reading the string stored in `c :: cs` when `c` is not NUL. -/
theorem char_at_cons (c : Nat) (cs : List Nat) (hc : c ≠ 0) :
    char_at (c :: cs) 0 = c ∧ ∀ i, char_at (c :: cs) (i + 1) = char_at cs i := by
  simp [char_at, cstr, List.takeWhile, hc]

/-- Two distinct byte values have a non-zero difference. -/
theorem byte_diff_ne_zero (a b : Nat) (h : a ≠ b) : (a : Int) - (b : Int) ≠ 0 := by
  omega

/-- The comparison returns 0 exactly when `str` has at least as many bytes as
`pfx` and agrees with it, after `tolower`, on the first `strlen pfx` bytes. -/
theorem strprefixcmp_eq_zero_iff (pfx : List Nat) :
    ∀ str : List Nat,
      strprefixcmp str pfx = 0 ↔
        strlen pfx ≤ strlen str ∧
        ∀ i, i < strlen pfx → tolower (char_at str i) = tolower (char_at pfx i) := by
  induction pfx with
  | nil =>
    intro str
    simp [strprefixcmp, strlen, strncasecmp]
  | cons c cs ih =>
    intro str
    by_cases hc : c = 0
    · simp [strprefixcmp, strlen, strncasecmp, hc]
    · have hlc : tolower c ≠ 0 := fun h => hc ((tolower_eq_zero c).mp h)
      have hpc := char_at_cons c cs hc
      cases str with
      | nil =>
        have hne : tolower 0 ≠ tolower c := by
          rw [(tolower_eq_zero 0).mpr rfl]; exact fun h => hlc h.symm
        simp only [strprefixcmp, strlen, hc, if_false, strncasecmp, List.headD_nil, List.headD_cons,
          ne_eq, hne,
          not_false_eq_true, if_true]
        constructor
        · intro h; exact absurd h (byte_diff_ne_zero _ _ hne)
        · intro h; omega
      | cons d ds =>
        by_cases hd : d = 0
        · subst hd
          have hne : tolower 0 ≠ tolower c := by
            rw [(tolower_eq_zero 0).mpr rfl]; exact fun h => hlc h.symm
          simp only [strprefixcmp, strlen, hc, if_false, strncasecmp, List.headD_cons, ne_eq, hne,
            not_false_eq_true, if_true]
          constructor
          · intro h; exact absurd h (byte_diff_ne_zero _ _ hne)
          · intro h; omega
        · have hsc := char_at_cons d ds hd
          by_cases heq : tolower d = tolower c
          · have hld : tolower d ≠ 0 := fun h => hd ((tolower_eq_zero d).mp h)
            have hstep : strprefixcmp (d :: ds) (c :: cs) = strprefixcmp ds cs := by
              simp [strprefixcmp, strlen, hc, strncasecmp, heq, hlc]
            rw [hstep, ih ds]
            simp only [strlen, hc, hd, if_false]
            constructor
            · rintro ⟨h1, h2⟩
              refine ⟨by omega, fun i hi => ?_⟩
              cases i with
              | zero => rw [hsc.1, hpc.1]; exact heq
              | succ j => rw [hsc.2 j, hpc.2 j]; exact h2 j (by omega)
            · rintro ⟨h1, h2⟩
              refine ⟨by omega, fun i hi => ?_⟩
              have := h2 (i + 1) (by omega)
              rwa [hsc.2 i, hpc.2 i] at this
          · simp only [strprefixcmp, strlen, hc, hd, if_false, strncasecmp, List.headD_cons, ne_eq,
              heq, not_false_eq_true, if_true]
            constructor
            · intro h; exact absurd h (byte_diff_ne_zero _ _ heq)
            · rintro ⟨_, h2⟩
              have := h2 0 (by omega)
              rw [hsc.1, hpc.1] at this
              exact absurd this heq

/-- C10: for all strings `str` and `pfx`, `strprefixcmp(str, pfx)` returns 0 if
and only if the first `strlen(pfx)` characters of `str` exist and equal those of
`pfx` after ASCII case folding; it returns 0 for every `str` when `pfx` is empty,
and a non-zero value when `str` is shorter than `pfx`. -/
theorem C10_strprefixcmp_zero_iff (str pfx : List Nat) :
    (strprefixcmp str pfx = 0 ↔
      strlen pfx ≤ strlen str ∧
      ∀ i, i < strlen pfx → tolower (char_at str i) = tolower (char_at pfx i)) ∧
    (strlen pfx = 0 → strprefixcmp str pfx = 0) ∧
    (strlen str < strlen pfx → strprefixcmp str pfx ≠ 0) := by
  refine ⟨strprefixcmp_eq_zero_iff pfx str, ?_, ?_⟩
  · intro h0
    exact (strprefixcmp_eq_zero_iff pfx str).mpr ⟨by omega, fun i hi => absurd hi (by omega)⟩
  · intro hlt h0
    have := ((strprefixcmp_eq_zero_iff pfx str).mp h0).1
    omega

/-- C10 on "Hello" against "hE", on any string against the empty one, and on
"H" against "hE". -/
theorem C10_strprefixcmp_zero_iff_witness :
    strprefixcmp [72, 101, 108, 108, 111] [104, 69] = 0 ∧
    strprefixcmp [72, 101] [] = 0 ∧
    strprefixcmp [72] [104, 69] ≠ 0 :=
  ⟨(C10_strprefixcmp_zero_iff [72, 101, 108, 108, 111] [104, 69]).1.mpr (by decide),
   (C10_strprefixcmp_zero_iff [72, 101] []).2.1 (by decide),
   (C10_strprefixcmp_zero_iff [72] [104, 69]).2.2 (by decide)⟩

end Dma
